import Mathlib

/-
Verification development for the Mars-Hydro light-control program.

Embedding conventions:
* `internal/timer/timer.go` — the schedule engine.  Go `float64` arithmetic is
  modelled by exact rationals: every quantity the source computes is an integer
  or a half-integer (hours, seconds, ramp durations), all exactly representable
  in `float64`, and the interpolation/rounding pipeline is idealised over `ℚ`.
  Go `int` is modelled by `Int` (all values involved are bounded by 86400 and
  brightness percentages, far from overflow).
* `internal/api/mh_api.go` — the device-session client.  The network is
  modelled as a script (`List HttpResult`) of outcomes, consumed one per HTTP
  round-trip: a connection failure of `http.DefaultClient.Do`, a JSON decode
  failure, or a decoded response carrying the fields the source inspects
  (`code`, `data.token`, the first device's extracted identifier, `groupId`).
  An exhausted script behaves like a connection failure.  Wall-clock time is a
  second count passed explicitly (`time.Since(t) = now - t`).
* `main.go` — the reconciliation tick `updateState`, modelled as a function of
  the closure state `lastBrightness` and the script.
-/

/-! ## internal/timer/timer.go -/

/-- The timer configuration struct (`LightTimer` in `timer.go`).  Field names
and order follow the source; `Brightness` is the plateau maximum. -/
structure LightTimer where
  StartHour : Int
  PlateauHour : Int
  EndHour : Int
  StepSize : Int
  PlateauOffset : Int
  Brightness : Int
deriving DecidableEq

/-- Go's `int(x)` conversion from `float64`: truncation toward zero. -/
def goTrunc (q : ℚ) : Int := if q < 0 then -⌊-q⌋ else ⌊q⌋

/-- Go's `math.Round`: rounding half away from zero. -/
def goRound (q : ℚ) : Int := if q < 0 then -⌊-q + 1/2⌋ else ⌊q + 1/2⌋

def startSec (lt : LightTimer) : Int := lt.StartHour * 3600

def endSec (lt : LightTimer) : Int := lt.EndHour * 3600

def plateauSec (lt : LightTimer) : Int := lt.PlateauHour * 3600

/-- `baselineRamp := float64(endSec-startSec-plateauSec) / 2.0`. -/
def baselineRamp (lt : LightTimer) : ℚ :=
  ((endSec lt - startSec lt - plateauSec lt : Int) : ℚ) / 2

/-- `offsetSec := float64(lt.PlateauOffset * 3600)`. -/
def offsetSecQ (lt : LightTimer) : ℚ := ((lt.PlateauOffset * 3600 : Int) : ℚ)

def sunriseRamp (lt : LightTimer) : ℚ := baselineRamp lt + offsetSecQ lt

def sunsetRamp (lt : LightTimer) : ℚ := baselineRamp lt - offsetSecQ lt

/-- `plateauStart := startSec + int(sunriseRamp)`. -/
def plateauStartSec (lt : LightTimer) : Int := startSec lt + goTrunc (sunriseRamp lt)

/-- `plateauEnd := plateauStart + plateauSec`. -/
def plateauEndSec (lt : LightTimer) : Int := plateauStartSec lt + plateauSec lt

/-- The interpolation/quantisation block that `GetExpectedBrightness` runs in
both the sunrise and the sunset branch (the source duplicates this code with
only the `fraction` differing):
`brightness := StepSize + fraction*(Brightness-StepSize)`,
`result := int(math.Round(brightness/StepSize) * StepSize)`,
then clamp to `Brightness`. -/
def rampValue (lt : LightTimer) (fraction : ℚ) : Int :=
  let brightness : ℚ := (lt.StepSize : ℚ) + fraction * ((lt.Brightness : ℚ) - (lt.StepSize : ℚ))
  let result : Int := goRound (brightness / (lt.StepSize : ℚ)) * lt.StepSize
  if result > lt.Brightness then lt.Brightness else result

/-- `GetExpectedBrightness` from `timer.go`, with `now` already converted to
seconds since midnight (`now.Hour()*3600 + now.Minute()*60 + now.Second()`). -/
def GetExpectedBrightness (lt : LightTimer) (nowSec : Int) : Int :=
  if nowSec < startSec lt ∨ nowSec ≥ endSec lt then 0
  else if (nowSec : ℚ) < (startSec lt : ℚ) + sunriseRamp lt then
    rampValue lt (((nowSec - startSec lt : Int) : ℚ) / sunriseRamp lt)
  else if plateauStartSec lt ≤ nowSec ∧ nowSec < plateauEndSec lt then
    lt.Brightness
  else if nowSec < endSec lt then
    rampValue lt (((endSec lt - nowSec : Int) : ℚ) / sunsetRamp lt)
  else 0

/-- The configuration invariant: the validation performed by
`LightTimer.LoadConfig` (`EndHour > StartHour + PlateauHour`, `StepSize`
a multiple of 5) together with the data-model ranges of the specification
(hours within a day, positive step, positive maximum, nonnegative plateau). -/
def ConfigValid (lt : LightTimer) : Prop :=
  lt.StartHour + lt.PlateauHour < lt.EndHour ∧
  lt.StepSize % 5 = 0 ∧
  0 < lt.StepSize ∧
  0 < lt.Brightness ∧
  0 ≤ lt.StartHour ∧
  lt.EndHour ≤ 24 ∧
  0 ≤ lt.PlateauHour

instance (lt : LightTimer) : Decidable (ConfigValid lt) := by
  unfold ConfigValid; infer_instance

/-- The example configuration of the specification and the repository README:
start 08:00, end 20:00, plateau 6 h, offset −1 h, step 10, maximum 100. -/
def cfg9 : LightTimer :=
  { StartHour := 8, PlateauHour := 6, EndHour := 20,
    StepSize := 10, PlateauOffset := -1, Brightness := 100 }

/-! ## internal/api/mh_api.go

The remote endpoint is modelled by a script of HTTP round-trip outcomes,
consumed in order, one per request the client issues (login, device list,
adjustLight, lampSwitch alike).  A `resp` event stands for a decoded JSON
body, carrying exactly the fields the source probes: the `code` status
string (absent when the field is missing or not a string), the login
response's `data.token` (absent when `data` is missing or the token is not a
string), the extracted identifier of the first entry of a device-list
response (absent when the list is missing, empty or malformed; `some ""`
when the entry has no usable `id`/`deviceId` field), and its `groupId`. -/

inductive HttpResult where
  /-- `http.DefaultClient.Do` returned an error (connection failure). -/
  | transErr : HttpResult
  /-- the response body failed to decode as JSON. -/
  | decodeErr : HttpResult
  /-- a decoded JSON response body. -/
  | resp (code : Option String) (token : Option String)
      (device : Option String) (groupId : Option String) : HttpResult
deriving DecidableEq

/-- The error values the client surfaces (the source returns `error` values
with these messages). -/
inductive ApiError where
  /-- a transport failure (`Do` returned an error, or the script ran dry). -/
  | httpError : ApiError
  /-- a JSON decode failure. -/
  | decodeError : ApiError
  /-- `"invalid login response"` / `"token not found in response"`. -/
  | authFailed : ApiError
  /-- `"error retrieving light devices"` (non-success device-list code). -/
  | listError : ApiError
  /-- `"no light devices available"` / `"invalid device data"`. -/
  | noDevices : ApiError
  /-- `"device id not found in response"`. -/
  | deviceIdNotFound : ApiError
  /-- `"received error response"` (non-success `adjustLight` code). -/
  | errorResponse : ApiError
  /-- marker for exhaustion of the recursion fuel: the source's
  `ToggleSwitch` retries by unbounded self-recursion, which the embedding
  caps with an explicit fuel parameter. -/
  | outOfFuel : ApiError
deriving DecidableEq

/-- The `MarsHydroAPI` struct.  The mutex is a concurrency artefact with no
sequential semantics and is omitted; times are second counts. -/
structure MarsHydroAPI where
  Email : String
  Password : String
  WifiName : String
  Token : String
  Timezone : String
  Language : String
  BaseURL : String
  LastLoginTime : Int
  LoginInterval : Int
  DeviceID : String
  GroupID : String
deriving DecidableEq

/-- `NewMarsHydroAPI`: fresh unauthenticated instance.  Go zero values give
the empty token, the zero login time and empty device/group identifiers. -/
def NewMarsHydroAPI (email password wifiName timezone language : String) : MarsHydroAPI :=
  { Email := email
    Password := password
    WifiName := wifiName
    Token := ""
    Timezone := timezone
    Language := language
    BaseURL := "https://api.lgledsolutions.com/api/android"
    LastLoginTime := 0
    LoginInterval := 300
    DeviceID := ""
    GroupID := "" }

/-- `Login`.  Skips when the cached token is nonempty and younger than
`LoginInterval`; otherwise performs the `mailLogin` round-trip and stores
the token from `data.token` on success.  Result: error option, updated
receiver, remaining script. -/
def Login (api : MarsHydroAPI) (now : Int) (script : List HttpResult) :
    Option ApiError × MarsHydroAPI × List HttpResult :=
  if api.Token ≠ "" ∧ now - api.LastLoginTime < api.LoginInterval then
    (none, api, script)
  else
    match script with
    | [] => (some .httpError, api, [])
    | .transErr :: rest => (some .httpError, api, rest)
    | .decodeErr :: rest => (some .decodeError, api, rest)
    | .resp _ none _ _ :: rest => (some .authFailed, api, rest)
    | .resp _ (some tok) _ _ :: rest =>
      (none, { api with Token := tok, LastLoginTime := now }, rest)

/-- `ensureToken`: logs in exactly when the cached token is empty. -/
def ensureToken (api : MarsHydroAPI) (now : Int) (script : List HttpResult) :
    Option ApiError × MarsHydroAPI × List HttpResult :=
  if api.Token = "" then Login api now script else (none, api, script)

/-- `ToggleSwitch`.  After `ensureToken`, issues the `lampSwitch` request; on
the expiry sentinel `code == "102"` it calls `Login` and retries by calling
itself again — the source bounds this recursion in no way, so the embedding
carries an explicit fuel (`outOfFuel` marks the diverging executions).  The
device id parameter only enters the request payload, which the model does
not inspect.  The returned value is the decoded response's code (the source
returns `resData` without checking it for success), the updated receiver,
the remaining script, and the number of `lampSwitch` requests issued. -/
def ToggleSwitch (fuel : Nat) (now : Int) (isClose : Bool) (api : MarsHydroAPI)
    (script : List HttpResult) :
    Except ApiError (Option String) × MarsHydroAPI × List HttpResult × Nat :=
  match fuel with
  | 0 => (.error .outOfFuel, api, script, 0)
  | fuel' + 1 =>
    match ensureToken api now script with
    | (some e, api', s') => (.error e, api', s', 0)
    | (none, api', s') =>
      match s' with
      | [] => (.error .httpError, api', [], 1)
      | .transErr :: rest => (.error .httpError, api', rest, 1)
      | .decodeErr :: rest => (.error .decodeError, api', rest, 1)
      | .resp code _ _ _ :: rest =>
        if code = some "102" then
          match Login api' now rest with
          | (some e, api2, s2) => (.error e, api2, s2, 1)
          | (none, api2, s2) =>
            match ToggleSwitch fuel' now isClose api2 s2 with
            | (r, api3, s3, n) => (r, api3, s3, n + 1)
        else (.ok code, api', rest, 1)

/-- `GetLightData`: device discovery.  Checks the success code `"000"`,
takes the first device of the list, extracts its identifier (`id` with
`deviceId` as fallback; numeric values are formatted to strings — the model
carries the extracted string directly) and the optional group identifier. -/
def GetLightData (api : MarsHydroAPI) (now : Int) (script : List HttpResult) :
    Option ApiError × MarsHydroAPI × List HttpResult :=
  match ensureToken api now script with
  | (some e, api', s') => (some e, api', s')
  | (none, api', s') =>
    match s' with
    | [] => (some .httpError, api', [])
    | .transErr :: rest => (some .httpError, api', rest)
    | .decodeErr :: rest => (some .decodeError, api', rest)
    | .resp code _ device groupId :: rest =>
      if code ≠ some "000" then (some .listError, api', rest)
      else
        match device with
        | none => (some .noDevices, api', rest)
        | some d =>
          let api2 := { api' with DeviceID := if d ≠ "" then d else api'.DeviceID }
          if api2.DeviceID = "" then (some .deviceIdNotFound, api2, rest)
          else (none, { api2 with GroupID := groupId.getD "" }, rest)

/-- `SetBrightness`.  Discovers the device when `DeviceID` is empty, ensures
a token, issues the `adjustLight` request and checks the success sentinel
`"000"`.  The source's transport-error branch reads `return nil`: a
connection failure is reported as success — the embedding reproduces this
faithfully. -/
def SetBrightness (api : MarsHydroAPI) (now : Int) (brightness : Int)
    (script : List HttpResult) : Option ApiError × MarsHydroAPI × List HttpResult :=
  match (if api.DeviceID = "" then GetLightData api now script else (none, api, script)) with
  | (some e, api', s') => (some e, api', s')
  | (none, api', s') =>
    match ensureToken api' now s' with
    | (some e, api2, s2) => (some e, api2, s2)
    | (none, api2, s2) =>
      match s2 with
      | [] => (none, api2, [])
      | .transErr :: rest => (none, api2, rest)
      | .decodeErr :: rest => (some .decodeError, api2, rest)
      | .resp code _ _ _ :: rest =>
        if code = some "000" then (none, api2, rest)
        else (some .errorResponse, api2, rest)

/-! ## main.go -/

/-- Account credentials (`internal/config`). -/
structure MHAccountConfig where
  Email : String
  Password : String
  Wifiname : String
  Timezone : String
  Language : String
deriving DecidableEq

/-- Result of one reconciliation tick (`updateState` in `main.go`).
`outcome` is `none` when the debounce skipped the update, `some none` when
the apply succeeded, `some (some e)` when login or `SetBrightness` failed.
`sessionUsed` is the `MarsHydroAPI` value constructed during the call, when
one was constructed. -/
structure TickResult where
  lastBrightness : Int
  sessionUsed : Option MarsHydroAPI
  outcome : Option (Option ApiError)
  script : List HttpResult
deriving DecidableEq

/-- `updateState` from `main.go`: skip when `lastBrightness != -1 &&
state == lastBrightness`; otherwise construct a fresh `MarsHydroAPI`,
log in, set the brightness, and record `lastBrightness = state` only when
both steps succeeded. -/
def updateState (account : MHAccountConfig) (state lastBrightness now : Int)
    (script : List HttpResult) : TickResult :=
  if lastBrightness ≠ -1 ∧ state = lastBrightness then
    ⟨lastBrightness, none, none, script⟩
  else
    let mhapi := NewMarsHydroAPI account.Email account.Password account.Wifiname
      account.Timezone account.Language
    match Login mhapi now script with
    | (some e, api', s') => ⟨lastBrightness, some api', some (some e), s'⟩
    | (none, api', s') =>
      match SetBrightness api' now state s' with
      | (some e, api2, s2) => ⟨lastBrightness, some api2, some (some e), s2⟩
      | (none, api2, s2) => ⟨state, some api2, some none, s2⟩

/-! ## Concrete values used in the theorems -/

deriving instance DecidableEq for Except

/-- A command response carrying the expired-token sentinel `code == "102"`. -/
def rsp102 : HttpResult := HttpResult.resp (some "102") none none none

/-- A command response carrying the success sentinel `code == "000"`. -/
def rsp000 : HttpResult := HttpResult.resp (some "000") none none none

def account0 : MHAccountConfig :=
  { Email := "e", Password := "p", Wifiname := "w", Timezone := "tz", Language := "l" }

/-- A session that has already authenticated (at second 0) and discovered its
device. -/
def apiReady : MarsHydroAPI :=
  { NewMarsHydroAPI "e" "p" "w" "tz" "l" with Token := "tok", DeviceID := "d" }

/-- A session holding a token issued at second 0, so that at `now = 1000`
the token is older than the 300-second `LoginInterval`. -/
def apiStale : MarsHydroAPI :=
  { NewMarsHydroAPI "e" "p" "w" "tz" "l" with Token := "stale" }

/-- Valid configuration with a zero-length plateau and an extreme negative
offset: `sunriseRamp = 21600 - 25200 = -3600 < 0`. -/
def cfg5 : LightTimer :=
  { StartHour := 8, PlateauHour := 0, EndHour := 20,
    StepSize := 10, PlateauOffset := -7, Brightness := 100 }

/-- Valid configuration whose maximum brightness 95 is not a multiple of the
step 10. -/
def cfg6 : LightTimer :=
  { StartHour := 8, PlateauHour := 6, EndHour := 20,
    StepSize := 10, PlateauOffset := -1, Brightness := 95 }

/-- Valid configuration with maximum brightness 3 below the step 10. -/
def cfg8 : LightTimer :=
  { StartHour := 8, PlateauHour := 6, EndHour := 20,
    StepSize := 10, PlateauOffset := 0, Brightness := 3 }

/-- Valid configuration with `sunriseRamp = -3600 ≤ 0` whose plateau still
covers the window start (`plateauEnd = 46800 > 28800`). -/
def cfgJ : LightTimer :=
  { StartHour := 8, PlateauHour := 6, EndHour := 20,
    StepSize := 10, PlateauOffset := -4, Brightness := 100 }

/-- Valid configuration with `sunsetRamp = 10800 - 18000 = -7200 ≤ 0`. -/
def cfgK : LightTimer :=
  { StartHour := 8, PlateauHour := 6, EndHour := 20,
    StepSize := 10, PlateauOffset := 5, Brightness := 100 }

/-- The total ramp budget `endSec - startSec - plateauSec` (twice the
baseline ramp), an integer. -/
def rampTotal (lt : LightTimer) : Int := endSec lt - startSec lt - plateauSec lt

/-! ## Helper lemmas -/

theorem ensureToken_skip (api : MarsHydroAPI) (now : Int) (s : List HttpResult)
    (h : api.Token ≠ "") : ensureToken api now s = (none, api, s) := by
  simp [ensureToken, h]

theorem ensureToken_empty (api : MarsHydroAPI) (now : Int) (s : List HttpResult)
    (h : api.Token = "") : ensureToken api now s = Login api now s := by
  simp [ensureToken, h]

theorem Login_skip (api : MarsHydroAPI) (now : Int) (s : List HttpResult)
    (h1 : api.Token ≠ "") (h2 : now - api.LastLoginTime < api.LoginInterval) :
    Login api now s = (none, api, s) := by
  simp [Login, h1, h2]

theorem Login_fresh (api : MarsHydroAPI) (now : Int) (c d g : Option String)
    (tok : String) (rest : List HttpResult) (h : api.Token = "") :
    Login api now (HttpResult.resp c (some tok) d g :: rest)
      = (none, { api with Token := tok, LastLoginTime := now }, rest) := by
  simp [Login, h]

theorem GetLightData_token (api : MarsHydroAPI) (now : Int) (s : List HttpResult)
    (h : api.Token ≠ "") : ((GetLightData api now s).2.1).Token = api.Token := by
  unfold GetLightData
  rw [ensureToken_skip api now s h]
  rcases s with _ | ⟨ev, rest⟩
  · rfl
  · rcases ev with _ | _ | ⟨code, tok, dev, gid⟩
    · rfl
    · rfl
    · by_cases hc : code ≠ some "000"
      · simp [hc]
      · rcases dev with _ | d
        · simp [hc]
        · by_cases hd : d ≠ "" <;> by_cases ha : api.DeviceID = "" <;>
            simp [hc, hd, ha]

theorem SetBrightness_token (api : MarsHydroAPI) (now brightness : Int)
    (s : List HttpResult) (h : api.Token ≠ "") :
    ((SetBrightness api now brightness s).2.1).Token = api.Token := by
  unfold SetBrightness
  rcases hdisc : (if api.DeviceID = "" then GetLightData api now s else (none, api, s)) with
    ⟨eOpt, api', s'⟩
  have htok' : api'.Token = api.Token := by
    by_cases hdev : api.DeviceID = ""
    · have hg := GetLightData_token api now s h
      rw [if_pos hdev] at hdisc
      rw [hdisc] at hg
      exact hg
    · rw [if_neg hdev] at hdisc
      obtain ⟨h1, h2⟩ := Prod.mk.inj hdisc
      obtain ⟨h2a, h2b⟩ := Prod.mk.inj h2
      rw [← h2a]
  rcases eOpt with _ | e
  · simp only []
    rw [ensureToken_skip api' now s' (by rw [htok']; exact h)]
    rcases s' with _ | ⟨ev, rest⟩
    · exact htok'
    · rcases ev with _ | _ | ⟨code, tok, dev, gid⟩
      · exact htok'
      · exact htok'
      · simp only []
        split
        · exact htok'
        · exact htok'
  · exact htok'

theorem goRound_of_nonneg (q : ℚ) (h : 0 ≤ q) : goRound q = ⌊q + 1/2⌋ := by
  simp [goRound, not_lt.2 h]

theorem goRound_mono (q₁ q₂ : ℚ) (h : 0 ≤ q₁) (h12 : q₁ ≤ q₂) :
    goRound q₁ ≤ goRound q₂ := by
  rw [goRound_of_nonneg q₁ h, goRound_of_nonneg q₂ (le_trans h h12)]
  exact Int.floor_le_floor (by linarith)

theorem one_le_goRound (q : ℚ) (h : 1 ≤ q) : 1 ≤ goRound q := by
  rw [goRound_of_nonneg q (by linarith)]
  exact Int.le_floor.2 (by push_cast; linarith)

/-- `rampValue` with its local bindings expanded. -/
theorem rampValue_eq (lt : LightTimer) (f : ℚ) :
    rampValue lt f =
      if goRound (((lt.StepSize : ℚ) + f * ((lt.Brightness : ℚ) - (lt.StepSize : ℚ)))
            / (lt.StepSize : ℚ)) * lt.StepSize > lt.Brightness
      then lt.Brightness
      else goRound (((lt.StepSize : ℚ) + f * ((lt.Brightness : ℚ) - (lt.StepSize : ℚ)))
            / (lt.StepSize : ℚ)) * lt.StepSize := rfl

theorem rampValue_le (lt : LightTimer) (f : ℚ) : rampValue lt f ≤ lt.Brightness := by
  rw [rampValue_eq]
  split
  · exact le_refl _
  · omega

theorem rampValue_dvd_or_eq (lt : LightTimer) (f : ℚ) :
    lt.StepSize ∣ rampValue lt f ∨ rampValue lt f = lt.Brightness := by
  rw [rampValue_eq]
  split
  · exact Or.inr rfl
  · exact Or.inl (dvd_mul_left _ _)

theorem rampValue_mono (lt : LightTimer) (f₁ f₂ : ℚ)
    (hstep : 0 < lt.StepSize) (hB : lt.StepSize ≤ lt.Brightness)
    (h0 : 0 ≤ f₁) (h12 : f₁ ≤ f₂) : rampValue lt f₁ ≤ rampValue lt f₂ := by
  have hstepQ : (0:ℚ) < (lt.StepSize : ℚ) := by exact_mod_cast hstep
  have hBQ : (lt.StepSize : ℚ) ≤ (lt.Brightness : ℚ) := by exact_mod_cast hB
  have hb : (lt.StepSize : ℚ) + f₁ * ((lt.Brightness : ℚ) - (lt.StepSize : ℚ))
      ≤ (lt.StepSize : ℚ) + f₂ * ((lt.Brightness : ℚ) - (lt.StepSize : ℚ)) := by
    have := mul_le_mul_of_nonneg_right h12 (by linarith : (0:ℚ) ≤ (lt.Brightness : ℚ) - (lt.StepSize : ℚ))
    linarith
  have hb0 : (0:ℚ) ≤ (lt.StepSize : ℚ) + f₁ * ((lt.Brightness : ℚ) - (lt.StepSize : ℚ)) := by
    have := mul_nonneg h0 (by linarith : (0:ℚ) ≤ (lt.Brightness : ℚ) - (lt.StepSize : ℚ))
    linarith
  have hdiv : ((lt.StepSize : ℚ) + f₁ * ((lt.Brightness : ℚ) - (lt.StepSize : ℚ))) / (lt.StepSize : ℚ)
      ≤ ((lt.StepSize : ℚ) + f₂ * ((lt.Brightness : ℚ) - (lt.StepSize : ℚ))) / (lt.StepSize : ℚ) := by
    gcongr
  have hr : goRound (((lt.StepSize : ℚ) + f₁ * ((lt.Brightness : ℚ) - (lt.StepSize : ℚ))) / (lt.StepSize : ℚ)) * lt.StepSize
      ≤ goRound (((lt.StepSize : ℚ) + f₂ * ((lt.Brightness : ℚ) - (lt.StepSize : ℚ))) / (lt.StepSize : ℚ)) * lt.StepSize := by
    have := goRound_mono _ _ (div_nonneg hb0 (le_of_lt hstepQ)) hdiv
    exact mul_le_mul_of_nonneg_right this (le_of_lt hstep)
  rw [rampValue_eq, rampValue_eq]
  split <;> split <;> omega

theorem step_le_rampValue (lt : LightTimer) (f : ℚ)
    (hstep : 0 < lt.StepSize) (hB : lt.StepSize ≤ lt.Brightness)
    (h0 : 0 ≤ f) : lt.StepSize ≤ rampValue lt f := by
  have hstepQ : (0:ℚ) < (lt.StepSize : ℚ) := by exact_mod_cast hstep
  have hBQ : (lt.StepSize : ℚ) ≤ (lt.Brightness : ℚ) := by exact_mod_cast hB
  have hb : (lt.StepSize : ℚ) ≤ (lt.StepSize : ℚ) + f * ((lt.Brightness : ℚ) - (lt.StepSize : ℚ)) := by
    have := mul_nonneg h0 (by linarith : (0:ℚ) ≤ (lt.Brightness : ℚ) - (lt.StepSize : ℚ))
    linarith
  have hq : (1:ℚ) ≤ ((lt.StepSize : ℚ) + f * ((lt.Brightness : ℚ) - (lt.StepSize : ℚ))) / (lt.StepSize : ℚ) :=
    (le_div_iff₀ hstepQ).2 (by linarith)
  have hr := one_le_goRound _ hq
  have hmul : 1 * lt.StepSize ≤ goRound (((lt.StepSize : ℚ) + f * ((lt.Brightness : ℚ) - (lt.StepSize : ℚ))) / (lt.StepSize : ℚ)) * lt.StepSize :=
    mul_le_mul_of_nonneg_right hr (le_of_lt hstep)
  rw [one_mul] at hmul
  rw [rampValue_eq]
  split <;> omega

theorem rampTotal_pos (lt : LightTimer) (h : ConfigValid lt) : 0 < rampTotal lt := by
  rcases h with ⟨h1, -, -, -, -, -, -⟩
  unfold rampTotal endSec startSec plateauSec
  omega

theorem two_baselineRamp (lt : LightTimer) :
    baselineRamp lt + baselineRamp lt = (rampTotal lt : ℚ) := by
  unfold baselineRamp rampTotal
  push_cast
  ring

theorem goTrunc_of_nonneg (q : ℚ) (h : 0 ≤ q) : goTrunc q = ⌊q⌋ := by
  simp [goTrunc, not_lt.2 h]

theorem goTrunc_nonpos (q : ℚ) (h : q ≤ 0) : goTrunc q ≤ 0 := by
  unfold goTrunc
  split
  · have : (0:Int) ≤ ⌊-q⌋ := Int.le_floor.2 (by push_cast; linarith)
    omega
  · have hq : q = 0 := le_antisymm h (not_lt.1 (by assumption))
    simp [hq]

theorem GetExpectedBrightness_sunrise (lt : LightTimer) (now : Int)
    (h1 : startSec lt ≤ now) (h3 : now < endSec lt)
    (h2 : (now : ℚ) < (startSec lt : ℚ) + sunriseRamp lt) :
    GetExpectedBrightness lt now
      = rampValue lt (((now - startSec lt : Int) : ℚ) / sunriseRamp lt) := by
  unfold GetExpectedBrightness
  rw [if_neg (by omega), if_pos h2]

theorem GetExpectedBrightness_plateau (lt : LightTimer) (now : Int)
    (h1 : startSec lt ≤ now) (h3 : now < endSec lt)
    (h2 : ¬((now : ℚ) < (startSec lt : ℚ) + sunriseRamp lt))
    (h4 : plateauStartSec lt ≤ now ∧ now < plateauEndSec lt) :
    GetExpectedBrightness lt now = lt.Brightness := by
  unfold GetExpectedBrightness
  rw [if_neg (by omega), if_neg h2, if_pos h4]

theorem GetExpectedBrightness_sunset (lt : LightTimer) (now : Int)
    (h1 : startSec lt ≤ now) (h3 : now < endSec lt)
    (h2 : ¬((now : ℚ) < (startSec lt : ℚ) + sunriseRamp lt))
    (h4 : ¬(plateauStartSec lt ≤ now ∧ now < plateauEndSec lt)) :
    GetExpectedBrightness lt now
      = rampValue lt (((endSec lt - now : Int) : ℚ) / sunsetRamp lt) := by
  unfold GetExpectedBrightness
  rw [if_neg (by omega), if_neg h2, if_neg h4, if_pos h3]

/-! ## Claim theorems -/

/-- C9 (confirmed): for the example configuration (start 08:00, end 20:00,
plateau 6 h, offset −1 h, step 10, maximum 100) the computed brightness is 10
at 08:00:00 (sunrise start), 100 at 14:00:00 (mid-plateau), 0 at 21:00:00
and 0 at 07:59:59. -/
theorem example_config_values :
    GetExpectedBrightness cfg9 28800 = 10 ∧
    GetExpectedBrightness cfg9 50400 = 100 ∧
    GetExpectedBrightness cfg9 75600 = 0 ∧
    GetExpectedBrightness cfg9 28799 = 0 := by
  refine ⟨?_, ?_, ?_, ?_⟩ <;>
    norm_num [GetExpectedBrightness, startSec, endSec, plateauSec, baselineRamp,
      offsetSecQ, sunriseRamp, sunsetRamp, plateauStartSec, plateauEndSec,
      rampValue, goRound, goTrunc, cfg9]

/-- C6 counterexample: the configuration `cfg6` satisfies the invariant
(95 is a positive maximum, 10 a positive multiple of 5), yet at 14:00:00 the
function returns the plateau maximum 95, which is not an integer multiple of
the step 10 — refuting "every returned value is an exact integer multiple of
stepSize". -/
theorem brightness_not_multiple_of_step :
    ConfigValid cfg6 ∧ GetExpectedBrightness cfg6 50400 = 95 ∧
    ¬ (cfg6.StepSize ∣ GetExpectedBrightness cfg6 50400) := by
  have hv : GetExpectedBrightness cfg6 50400 = 95 := by
    norm_num [GetExpectedBrightness, startSec, endSec, plateauSec, baselineRamp,
      offsetSecQ, sunriseRamp, sunsetRamp, plateauStartSec, plateauEndSec,
      rampValue, goRound, goTrunc, cfg6]
  refine ⟨by decide, hv, ?_⟩
  rw [hv]
  decide

/-- C6 amended: for every configuration satisfying the invariant and every
timestamp, the returned value is an integer multiple of `StepSize` or equal
to the configured maximum `Brightness`, and it never exceeds `Brightness`
(it is a multiple of the step whenever the step divides the maximum). -/
theorem brightness_multiple_or_max_and_bounded (lt : LightTimer) (nowSec : Int)
    (h : ConfigValid lt) :
    (lt.StepSize ∣ GetExpectedBrightness lt nowSec ∨
      GetExpectedBrightness lt nowSec = lt.Brightness) ∧
    GetExpectedBrightness lt nowSec ≤ lt.Brightness := by
  obtain ⟨-, -, -, hB, -, -, -⟩ := h
  unfold GetExpectedBrightness
  split
  · exact ⟨Or.inl (dvd_zero _), by omega⟩
  split
  · exact ⟨rampValue_dvd_or_eq _ _, rampValue_le _ _⟩
  split
  · exact ⟨Or.inr rfl, le_refl _⟩
  split
  · exact ⟨rampValue_dvd_or_eq _ _, rampValue_le _ _⟩
  · exact ⟨Or.inl (dvd_zero _), by omega⟩

theorem brightness_multiple_or_max_witness :
    ((cfg9.StepSize ∣ GetExpectedBrightness cfg9 50400) ∨
      GetExpectedBrightness cfg9 50400 = cfg9.Brightness) ∧
    GetExpectedBrightness cfg9 50400 ≤ cfg9.Brightness :=
  brightness_multiple_or_max_and_bounded cfg9 50400 (by decide)

/-- C10 (confirmed): with both ramps strictly positive and
`Brightness ≥ StepSize > 0`, every timestamp inside the on-window
`[startSec, endSec)` yields a brightness of at least `StepSize` — the lamp is
never computed as fully off inside the window. -/
theorem in_window_brightness_at_least_step (lt : LightTimer) (nowSec : Int)
    (hsr : 0 < sunriseRamp lt) (hss : 0 < sunsetRamp lt)
    (hstep : 0 < lt.StepSize) (hB : lt.StepSize ≤ lt.Brightness)
    (h1 : startSec lt ≤ nowSec) (h2 : nowSec < endSec lt) :
    lt.StepSize ≤ GetExpectedBrightness lt nowSec := by
  unfold GetExpectedBrightness
  rw [if_neg (by omega), if_pos h2]
  split
  · exact step_le_rampValue lt _ hstep hB
      (div_nonneg (by exact_mod_cast Int.sub_nonneg.2 h1) (le_of_lt hsr))
  split
  · exact hB
  · exact step_le_rampValue lt _ hstep hB
      (div_nonneg (by exact_mod_cast Int.sub_nonneg.2 (le_of_lt h2)) (le_of_lt hss))

theorem in_window_brightness_witness :
    cfg9.StepSize ≤ GetExpectedBrightness cfg9 30000 :=
  in_window_brightness_at_least_step cfg9 30000
    (by norm_num [sunriseRamp, baselineRamp, offsetSecQ, endSec, startSec, plateauSec, cfg9])
    (by norm_num [sunsetRamp, baselineRamp, offsetSecQ, endSec, startSec, plateauSec, cfg9])
    (by decide) (by decide) (by decide) (by decide)

/-- C2 (code bug): `SetBrightness`'s transport-error branch reads
`if err != nil { return nil }` — a connection failure of the `adjustLight`
request is reported as success, with no success-sentinel check at all,
while a malformed JSON body is correctly surfaced as an error.  The first
conjunct exhibits the bug on a ready session (cached token and device id):
the result carries no error. -/
theorem setBrightness_transport_error_reports_success :
    (SetBrightness apiReady 0 50 [HttpResult.transErr]).1 = none ∧
    (SetBrightness apiReady 0 50 [HttpResult.decodeErr]).1 = some ApiError.decodeError := by
  decide

/-- C3 counterexample: a session whose nonempty token is 1000 seconds old —
far beyond the 300-second interval — is left untouched by `ensureToken`:
no login round-trip is consumed, the token and its timestamp are unchanged,
refuting "performs a login … when the time since the last successful login
is at least the token TTL". -/
theorem ensureToken_ignores_stale_token :
    1000 - apiStale.LastLoginTime ≥ apiStale.LoginInterval ∧
    apiStale.Token ≠ "" ∧
    ensureToken apiStale 1000 [HttpResult.resp none (some "fresh") none none]
      = (none, apiStale, [HttpResult.resp none (some "fresh") none none]) := by
  decide

/-- C3 amended: `ensureToken` performs a login exactly when the cached token
is empty; with a nonempty token it is a no-op regardless of the token's age
(the elapsed-time check lives only inside `Login` as a skip guard). -/
theorem ensureToken_login_iff_empty (api : MarsHydroAPI) (now : Int)
    (s : List HttpResult) :
    (api.Token = "" → ensureToken api now s = Login api now s) ∧
    (api.Token ≠ "" → ensureToken api now s = (none, api, s)) :=
  ⟨ensureToken_empty api now s, ensureToken_skip api now s⟩

theorem ensureToken_login_iff_empty_witness :
    ensureToken (NewMarsHydroAPI "e" "p" "w" "tz" "l") 0 []
        = Login (NewMarsHydroAPI "e" "p" "w" "tz" "l") 0 [] ∧
    ensureToken apiReady 0 [] = (none, apiReady, []) :=
  ⟨(ensureToken_login_iff_empty (NewMarsHydroAPI "e" "p" "w" "tz" "l") 0 []).1 rfl,
   (ensureToken_login_iff_empty apiReady 0 []).2 (by decide)⟩

/-- C1 counterexample: a `lampSwitch` exchange that answers the expiry
sentinel `"102"` twice and then succeeds.  The source retries after **both**
expiries (the in-between `Login` calls skip, the cached token being fresh):
three `lampSwitch` requests are issued — two retries, not "exactly once
more" — and the final result is success, not `CommandRejected`. -/
theorem toggleSwitch_double_expiry_retries_twice :
    ToggleSwitch 5 0 false apiReady [rsp102, rsp102, rsp000]
      = (Except.ok (some "000"), apiReady, [], 3) := by
  decide

/-- C1 amended: the expiry-sentinel handling that the code actually has.
`ToggleSwitch` re-invokes `Login` (which skips while the cached token is
nonempty and fresh) and retries through self-recursion with **no** bound:
`n` consecutive `"102"` responses followed by a success yield `n + 1`
`lampSwitch` requests and an overall success — never a rejection of the
second expiry.  `SetBrightness` performs **no** expiry-driven retry at all:
any non-`"000"` code, the expiry sentinel `"102"` included, is surfaced
immediately as an error after a single `adjustLight` request. -/
theorem toggle_unbounded_retry_set_no_retry
    (n : Nat) (isClose : Bool) (api : MarsHydroAPI) (now brightness : Int)
    (rest : List HttpResult)
    (htok : api.Token ≠ "") (hfresh : now - api.LastLoginTime < api.LoginInterval) :
    ToggleSwitch (n + 1) now isClose api (List.replicate n rsp102 ++ [rsp000])
      = (Except.ok (some "000"), api, [], n + 1) ∧
    (api.DeviceID ≠ "" →
      SetBrightness api now brightness (rsp102 :: rest)
        = (some ApiError.errorResponse, api, rest)) := by
  constructor
  · induction n with
    | zero =>
      unfold ToggleSwitch
      rw [ensureToken_skip api now _ htok]
      simp [rsp000]
    | succ k ih =>
      have hrep : List.replicate (k + 1) rsp102 ++ [rsp000]
          = rsp102 :: (List.replicate k rsp102 ++ [rsp000]) := by
        simp [List.replicate_succ]
      rw [hrep]
      unfold ToggleSwitch
      rw [ensureToken_skip api now _ htok]
      simp only [rsp102] at ih ⊢
      rw [if_pos trivial, Login_skip api now _ htok hfresh]
      simp [ih]
  · intro hdev
    unfold SetBrightness
    rw [if_neg hdev]
    simp only []
    rw [ensureToken_skip api now _ htok]
    simp [rsp102]

theorem toggle_retry_witness :
    ToggleSwitch 3 0 false apiReady (List.replicate 2 rsp102 ++ [rsp000])
      = (Except.ok (some "000"), apiReady, [], 3) ∧
    SetBrightness apiReady 0 50 (rsp102 :: [])
      = (some ApiError.errorResponse, apiReady, []) := by
  have h := toggle_unbounded_retry_set_no_retry 2 false apiReady 0 50 []
    (by decide) (by decide)
  exact ⟨h.1, h.2 (by decide)⟩

/-- C5 counterexample: `cfg5` (plateau 0 h, offset −7 h) satisfies the
invariant and has `sunriseRamp = -3600 < 0`, yet at the in-window instant
08:00:00 the function returns 90, not the maximum 100: with the plateau not
covering the window start, control falls into the sunset interpolation, so
the "immediate jump to maxBrightness" does not hold. -/
theorem negative_sunrise_ramp_not_max_at_window_start :
    ConfigValid cfg5 ∧ sunriseRamp cfg5 < 0 ∧
    startSec cfg5 ≤ 28800 ∧ 28800 < endSec cfg5 ∧
    GetExpectedBrightness cfg5 28800 = 90 ∧ cfg5.Brightness = 100 := by
  refine ⟨by decide, ?_, by decide, by decide, ?_, rfl⟩
  · norm_num [sunriseRamp, baselineRamp, offsetSecQ, endSec, startSec, plateauSec, cfg5]
  · norm_num [GetExpectedBrightness, startSec, endSec, plateauSec, baselineRamp,
      offsetSecQ, sunriseRamp, sunsetRamp, plateauStartSec, plateauEndSec,
      rampValue, goRound, goTrunc, cfg5]

/-- C5 amended: the division safety and degenerate-ramp behaviour the code
actually has.  (1) The sunrise branch divides by `sunriseRamp` only when it
is strictly positive and (2) the sunset branch divides by `sunsetRamp` only
when it is strictly positive, so no division by zero is ever performed for a
valid configuration.  (3) When `sunriseRamp ≤ 0` the sunrise ramp is
skipped, and the window start jumps immediately to the maximum provided the
plateau covers it.  (4) When `sunsetRamp ≤ 0` every in-window instant past
the sunrise guard yields the maximum — the plateau absorbs the rest of the
window.  (The claim's unconditional "immediate jump to maxBrightness" fails
when the plateau does not cover the window start: see the counterexample.) -/
theorem brightness_division_guards_and_degenerate_ramps
    (lt : LightTimer) (nowSec : Int) (h : ConfigValid lt) :
    (startSec lt ≤ nowSec → (nowSec : ℚ) < (startSec lt : ℚ) + sunriseRamp lt →
       0 < sunriseRamp lt) ∧
    (startSec lt ≤ nowSec → nowSec < endSec lt →
       ¬((nowSec : ℚ) < (startSec lt : ℚ) + sunriseRamp lt) →
       ¬(plateauStartSec lt ≤ nowSec ∧ nowSec < plateauEndSec lt) →
       0 < sunsetRamp lt) ∧
    (sunriseRamp lt ≤ 0 → startSec lt < plateauEndSec lt →
       GetExpectedBrightness lt (startSec lt) = lt.Brightness) ∧
    (sunsetRamp lt ≤ 0 → startSec lt ≤ nowSec → nowSec < endSec lt →
       ¬((nowSec : ℚ) < (startSec lt : ℚ) + sunriseRamp lt) →
       GetExpectedBrightness lt nowSec = lt.Brightness) := by
  have hW : 0 < rampTotal lt := rampTotal_pos lt h
  have hbr := two_baselineRamp lt
  have hend : endSec lt = startSec lt + rampTotal lt + plateauSec lt := by
    unfold rampTotal; ring
  have hp0 : 0 ≤ plateauSec lt := by
    obtain ⟨-, -, -, -, -, -, hp⟩ := h
    unfold plateauSec
    omega
  have key : sunsetRamp lt ≤ 0 → startSec lt ≤ nowSec → nowSec < endSec lt →
      ¬((nowSec : ℚ) < (startSec lt : ℚ) + sunriseRamp lt) →
      plateauStartSec lt ≤ nowSec ∧ nowSec < plateauEndSec lt := by
    intro hss h1 h2 h3
    have hsrW : (rampTotal lt : ℚ) ≤ sunriseRamp lt := by
      unfold sunriseRamp
      unfold sunsetRamp at hss
      linarith
    have hsr0 : (0:ℚ) ≤ sunriseRamp lt :=
      le_trans (by exact_mod_cast le_of_lt hW) hsrW
    have hfl : rampTotal lt ≤ ⌊sunriseRamp lt⌋ := Int.le_floor.2 hsrW
    have htr : goTrunc (sunriseRamp lt) = ⌊sunriseRamp lt⌋ := goTrunc_of_nonneg _ hsr0
    have hns : (startSec lt : ℚ) + sunriseRamp lt ≤ (nowSec : ℚ) := not_lt.1 h3
    have hps : plateauStartSec lt ≤ nowSec := by
      have hq : ((startSec lt + ⌊sunriseRamp lt⌋ : Int) : ℚ) ≤ (nowSec : ℚ) := by
        push_cast
        have := Int.floor_le (sunriseRamp lt)
        linarith
      have hz : startSec lt + ⌊sunriseRamp lt⌋ ≤ nowSec := by exact_mod_cast hq
      unfold plateauStartSec
      rw [htr]
      exact hz
    have hpeval : plateauEndSec lt = startSec lt + ⌊sunriseRamp lt⌋ + plateauSec lt := by
      unfold plateauEndSec plateauStartSec
      rw [htr]
    exact ⟨hps, by omega⟩
  refine ⟨?_, ?_, ?_, ?_⟩
  · intro h1 h2
    have h1Q : ((startSec lt : Int) : ℚ) ≤ (nowSec : ℚ) := by exact_mod_cast h1
    linarith
  · intro h1 h2 h3 h4
    by_contra hss
    exact h4 (key (not_lt.1 hss) h1 h2 h3)
  · intro hsr hcov
    have hse : startSec lt < endSec lt := by omega
    apply GetExpectedBrightness_plateau lt (startSec lt) (le_refl _) hse
    · exact not_lt.2 (by linarith)
    · constructor
      · unfold plateauStartSec
        have := goTrunc_nonpos _ hsr
        omega
      · exact hcov
  · intro hss h1 h2 h3
    exact GetExpectedBrightness_plateau lt nowSec h1 h2 h3 (key hss h1 h2 h3)

theorem degenerate_ramps_witness :
    0 < sunriseRamp cfg9 ∧ 0 < sunsetRamp cfg9 ∧
    GetExpectedBrightness cfgJ (startSec cfgJ) = cfgJ.Brightness ∧
    GetExpectedBrightness cfgK 60000 = cfgK.Brightness := by
  have h1 := (brightness_division_guards_and_degenerate_ramps cfg9 30000 (by decide)).1
  have h2 := (brightness_division_guards_and_degenerate_ramps cfg9 60000 (by decide)).2.1
  have h3 := (brightness_division_guards_and_degenerate_ramps cfgJ 0 (by decide)).2.2.1
  have h4 := (brightness_division_guards_and_degenerate_ramps cfgK 60000 (by decide)).2.2.2
  refine ⟨h1 (by decide) ?_, h2 (by decide) (by decide) ?_ ?_, h3 ?_ ?_, h4 ?_ (by decide) (by decide) ?_⟩ <;>
    norm_num [sunriseRamp, sunsetRamp, baselineRamp, offsetSecQ, startSec, endSec,
      plateauSec, plateauStartSec, plateauEndSec, goTrunc, cfg9, cfgJ, cfgK]

/-- C8 counterexample: `cfg8` satisfies the invariant and has strictly
positive ramps, but its maximum 3 lies below the step 10.  Both 08:00:00 and
10:24:00 lie in the sunrise window, yet the value falls from 3 (raw 10,
rounded to 10, clamped to 3) to 0 (raw 4.4, rounded to 0) — the sunrise
phase is not monotone non-decreasing for every invariant-satisfying
configuration. -/
theorem sunrise_not_monotone_for_small_max :
    ConfigValid cfg8 ∧ 0 < sunriseRamp cfg8 ∧ 0 < sunsetRamp cfg8 ∧
    startSec cfg8 ≤ 28800 ∧ (28800:Int) ≤ 37440 ∧
    ((37440:Int) : ℚ) < (startSec cfg8 : ℚ) + sunriseRamp cfg8 ∧
    37440 < endSec cfg8 ∧
    GetExpectedBrightness cfg8 37440 < GetExpectedBrightness cfg8 28800 := by
  refine ⟨by decide, ?_, ?_, by decide, by decide, ?_, by decide, ?_⟩ <;>
    norm_num [GetExpectedBrightness, startSec, endSec, plateauSec, baselineRamp,
      offsetSecQ, sunriseRamp, sunsetRamp, plateauStartSec, plateauEndSec,
      rampValue, goRound, goTrunc, cfg8]

/-- C8 amended: for a fixed configuration satisfying the invariant, with
positive ramp durations **and** `StepSize ≤ Brightness`, the computed value
is monotone non-decreasing as the timestamp increases through the sunrise
window and monotone non-increasing through the sunset window. -/
theorem brightness_monotone_on_ramps (lt : LightTimer) (t₁ t₂ : Int)
    (h : ConfigValid lt) (hBs : lt.StepSize ≤ lt.Brightness)
    (hsr : 0 < sunriseRamp lt) (hss : 0 < sunsetRamp lt) (h12 : t₁ ≤ t₂) :
    (startSec lt ≤ t₁ → (t₂ : ℚ) < (startSec lt : ℚ) + sunriseRamp lt →
       t₂ < endSec lt →
       GetExpectedBrightness lt t₁ ≤ GetExpectedBrightness lt t₂) ∧
    ((startSec lt : ℚ) + sunriseRamp lt ≤ (t₁ : ℚ) → plateauEndSec lt ≤ t₁ →
       t₂ < endSec lt →
       GetExpectedBrightness lt t₂ ≤ GetExpectedBrightness lt t₁) := by
  obtain ⟨-, -, hstep, -, -, -, -⟩ := h
  have h12Q : (t₁ : ℚ) ≤ (t₂ : ℚ) := by exact_mod_cast h12
  constructor
  · intro hw1 hw2 hw3
    have ht1 : (t₁ : ℚ) < (startSec lt : ℚ) + sunriseRamp lt := lt_of_le_of_lt h12Q hw2
    rw [GetExpectedBrightness_sunrise lt t₁ hw1 (by omega) ht1,
        GetExpectedBrightness_sunrise lt t₂ (by omega) hw3 hw2]
    apply rampValue_mono lt _ _ hstep hBs
    · exact div_nonneg (by exact_mod_cast Int.sub_nonneg.2 hw1) (le_of_lt hsr)
    · apply div_le_div_of_nonneg_right ?_ (le_of_lt hsr)
      push_cast
      linarith
  · intro hw1 hw2 hw3
    have hs1 : startSec lt ≤ t₁ := by
      have : ((startSec lt : Int) : ℚ) < (t₁ : ℚ) := by linarith
      exact_mod_cast le_of_lt this
    have hng1 : ¬((t₁ : ℚ) < (startSec lt : ℚ) + sunriseRamp lt) := not_lt.2 hw1
    have hng2 : ¬((t₂ : ℚ) < (startSec lt : ℚ) + sunriseRamp lt) :=
      not_lt.2 (le_trans hw1 h12Q)
    have hnp1 : ¬(plateauStartSec lt ≤ t₁ ∧ t₁ < plateauEndSec lt) := by
      rintro ⟨-, hlt⟩
      omega
    have hnp2 : ¬(plateauStartSec lt ≤ t₂ ∧ t₂ < plateauEndSec lt) := by
      rintro ⟨-, hlt⟩
      omega
    rw [GetExpectedBrightness_sunset lt t₁ hs1 (by omega) hng1 hnp1,
        GetExpectedBrightness_sunset lt t₂ (by omega) hw3 hng2 hnp2]
    apply rampValue_mono lt _ _ hstep hBs
    · exact div_nonneg (by exact_mod_cast Int.sub_nonneg.2 (le_of_lt hw3)) (le_of_lt hss)
    · apply div_le_div_of_nonneg_right ?_ (le_of_lt hss)
      push_cast
      linarith

theorem brightness_monotone_witness :
    GetExpectedBrightness cfg9 28800 ≤ GetExpectedBrightness cfg9 32400 ∧
    GetExpectedBrightness cfg9 68400 ≤ GetExpectedBrightness cfg9 60000 := by
  have hA := (brightness_monotone_on_ramps cfg9 28800 32400 (by decide) (by decide)
    (by norm_num [sunriseRamp, baselineRamp, offsetSecQ, startSec, endSec, plateauSec, cfg9])
    (by norm_num [sunsetRamp, baselineRamp, offsetSecQ, startSec, endSec, plateauSec, cfg9])
    (by decide)).1
  have hB := (brightness_monotone_on_ramps cfg9 60000 68400 (by decide) (by decide)
    (by norm_num [sunriseRamp, baselineRamp, offsetSecQ, startSec, endSec, plateauSec, cfg9])
    (by norm_num [sunsetRamp, baselineRamp, offsetSecQ, startSec, endSec, plateauSec, cfg9])
    (by decide)).2
  refine ⟨hA (by decide) ?_ (by decide), hB ?_ ?_ (by decide)⟩ <;>
    norm_num [sunriseRamp, sunsetRamp, baselineRamp, offsetSecQ, startSec, endSec,
      plateauSec, plateauStartSec, plateauEndSec, goTrunc, cfg9]

/-- C4 counterexample: two consecutive applying ticks.  Tick 1 (target 50,
state unknown) logs in with token `"abc"` and discovers device `"d1"`.
Tick 2 (target 60) does **not** continue from that session: `updateState`
builds a fresh unauthenticated instance, so the tick-2 session consumes a
fresh login (ending with token `"xyz"`, issued at second 60) and a fresh
device discovery from the network — had the tick-1 instance persisted, its
fresh token `"abc"` and known device id would have skipped both round
trips. -/
theorem updateState_second_tick_fresh_login :
    (updateState account0 50 (-1) 0
        [HttpResult.resp none (some "abc") none none,
         HttpResult.resp (some "000") none (some "d1") none, rsp000]).sessionUsed
      = some { NewMarsHydroAPI "e" "p" "w" "tz" "l" with
                Token := "abc", DeviceID := "d1" } ∧
    (updateState account0 60 50 60
        [HttpResult.resp none (some "xyz") none none,
         HttpResult.resp (some "000") none (some "d1") none, rsp000]).sessionUsed
      = some { NewMarsHydroAPI "e" "p" "w" "tz" "l" with
                Token := "xyz", LastLoginTime := 60, DeviceID := "d1" } := by
  decide

/-- C4 amended: `updateState` constructs a fresh unauthenticated
`MarsHydroAPI` value on every invocation that needs an apply; no session
state survives between ticks.  Whichever way the rest of the exchange goes,
the session used by an applying tick carries the token taken from **this**
tick's login response — a full login happens anew on every applying tick. -/
theorem updateState_creates_fresh_session (account : MHAccountConfig)
    (state last now : Int) (tok : String) (c d g : Option String)
    (rest : List HttpResult)
    (happly : ¬(last ≠ -1 ∧ state = last)) (htok : tok ≠ "") :
    ((updateState account state last now
        (HttpResult.resp c (some tok) d g :: rest)).sessionUsed).map MarsHydroAPI.Token
      = some tok := by
  unfold updateState
  rw [if_neg happly]
  simp only []
  rw [Login_fresh _ now c d g tok rest rfl]
  simp only []
  rcases hS : SetBrightness { NewMarsHydroAPI account.Email account.Password
      account.Wifiname account.Timezone account.Language with
      Token := tok, LastLoginTime := now } now state rest with ⟨eS, api2, s2⟩
  have hT : api2.Token = tok := by
    have hkeep := SetBrightness_token { NewMarsHydroAPI account.Email account.Password
      account.Wifiname account.Timezone account.Language with
      Token := tok, LastLoginTime := now } now state rest htok
    rw [hS] at hkeep
    exact hkeep
  rcases eS with _ | e <;> simp [hT]

theorem updateState_creates_fresh_session_witness :
    ((updateState account0 50 (-1) 0
        [HttpResult.resp none (some "abc") none none]).sessionUsed).map MarsHydroAPI.Token
      = some "abc" :=
  updateState_creates_fresh_session account0 50 (-1) 0 "abc" none none none []
    (by decide) (by decide)

/-- C7 (confirmed): the tick applies exactly when the last applied
brightness is unknown (`-1`) or differs from the computed target — so the
first tick always applies — and `lastBrightness` becomes the target exactly
on a successful apply, staying unchanged on a failed apply and on a
debounce skip.  (The apply attempt comprises the login and the
`SetBrightness` command; a login failure counts as a failed attempt.) -/
theorem updateState_debounce_and_last_applied (account : MHAccountConfig)
    (state last now : Int) (script : List HttpResult) :
    ((updateState account state last now script).outcome.isSome
        ↔ (last = -1 ∨ state ≠ last)) ∧
    ((updateState account state last now script).outcome = some none →
       (updateState account state last now script).lastBrightness = state) ∧
    (∀ e, (updateState account state last now script).outcome = some (some e) →
       (updateState account state last now script).lastBrightness = last) ∧
    ((updateState account state last now script).outcome = none →
       (updateState account state last now script).lastBrightness = last) := by
  unfold updateState
  by_cases hskip : last ≠ -1 ∧ state = last
  · rw [if_pos hskip]
    refine ⟨?_, ?_, ?_, fun _ => rfl⟩
    · constructor
      · intro hf
        simp at hf
      · rintro (h1 | h2)
        · exact absurd h1 hskip.1
        · exact absurd hskip.2 h2
    · intro hf
      simp at hf
    · intro e hf
      simp at hf
  · rw [if_neg hskip]
    have hcond : last = -1 ∨ state ≠ last := by tauto
    simp only []
    rcases hL : Login (NewMarsHydroAPI account.Email account.Password account.Wifiname
        account.Timezone account.Language) now script with ⟨eL, api', s'⟩
    rcases eL with _ | e
    · simp only []
      rcases hS : SetBrightness api' now state s' with ⟨eS, api2, s2⟩
      rcases eS with _ | e
      · simp [hcond]
      · simp [hcond]
    · simp [hcond]

theorem updateState_debounce_witness :
    ((updateState account0 50 (-1) 0 []).outcome.isSome
        ↔ ((-1:Int) = -1 ∨ (50:Int) ≠ -1)) ∧
    (updateState account0 50 (-1) 0 []).lastBrightness = -1 := by
  have h := updateState_debounce_and_last_applied account0 50 (-1) 0 []
  exact ⟨h.1, h.2.2.1 ApiError.httpError (by decide)⟩
